import Mathlib

/-!
Verification of the lydata conversion primitives.

This file embeds, in Lean, the pure conversion primitives of the lydata
repository (the modules mapping_radiotherapy.py and mapping_surgery.py of the
2025-umcg-hypopharynx-larynx dataset, and scripts/shared.py) and proves the
specified properties about them.

Modelling conventions:
  a raw spreadsheet cell is missing (None or NaN), a text value, or an
  integer value; Python int(x) on text is modelled by a sign-and-digits
  parser; the external dateparser.parse is modelled on absolute ISO
  YYYY-MM-DD inputs (the format the raw CSV columns use), every other text
  being unparseable; functions of the source that can raise an uncaught
  exception return Except, the error value naming the Python exception.
-/

/-- A raw spreadsheet cell: missing (None or NaN), a text value, or an
integer value. -/
inductive Cell where
  | missing
  | str (s : String)
  | int (n : Int)
deriving DecidableEq

/-- Is the character an ASCII decimal digit. -/
def isDigitCh (c : Char) : Bool := 48 ≤ c.toNat && c.toNat ≤ 57

/-- Numeric value of an ASCII digit character. -/
def chVal (c : Char) : Nat := c.toNat - 48

/-- Accumulate the value of a digit string; none as soon as a non-digit
appears. -/
def digitsToNatAux : List Char → Nat → Option Nat
  | [], acc => some acc
  | c :: cs, acc =>
    if isDigitCh c then digitsToNatAux cs (10 * acc + chVal c) else none

/-- Parse a nonempty all-digit character list. -/
def digitsToNat : List Char → Option Nat
  | [] => none
  | cs => digitsToNatAux cs 0

/-- Model of Python int(s) on text: an optional sign followed by one or
more digits; anything else raises ValueError, modelled as none. -/
def parsePyInt (s : String) : Option Int :=
  match s.data with
  | '-' :: cs => (digitsToNat cs).map (fun n => -(n : Int))
  | '+' :: cs => (digitsToNat cs).map (fun n => (n : Int))
  | cs => (digitsToNat cs).map (fun n => (n : Int))

/-- Model of Python int(entry) on a cell: none when the conversion raises
(TypeError on missing, ValueError on unparseable text). -/
def pyInt : Cell → Option Int
  | .missing => none
  | .str s => parsePyInt s
  | .int n => some n

/-- Embedding of robust_int: int(entry), catching ValueError and TypeError
into None. -/
def robust_int (entry : Cell) : Option Int := pyInt entry

/-- Embedding of robust_bool: None when pd.isna(entry); otherwise
bool(int(entry)), catching ValueError into None. -/
def robust_bool (entry : Cell) : Option Bool :=
  match entry with
  | .missing => none
  | e => (pyInt e).map (fun n => n != 0)

/-- Embedding of is_smaller_or_nan: True when pd.isna(entry); otherwise
int(entry) < threshold, catching ValueError into None. -/
def is_smaller_or_nan (entry : Cell) (threshold : Int) : Option Bool :=
  match entry with
  | .missing => some true
  | e => (pyInt e).map (fun n => decide (n < threshold))

/-- A calendar date as produced by the date parser. -/
structure PyDate where
  year : Nat
  month : Nat
  day : Nat
deriving DecidableEq

/-- Model of the external dateparser.parse on absolute ISO YYYY-MM-DD text
(the format of the raw CSV date columns): four digit year, dash, two digit
month in 1..12, dash, two digit day in 1..31; every other text is
unparseable (none). -/
def dateparse (s : String) : Option PyDate :=
  match s.data with
  | [y1, y2, y3, y4, '-', m1, m2, '-', d1, d2] =>
    if isDigitCh y1 && isDigitCh y2 && isDigitCh y3 && isDigitCh y4 &&
        isDigitCh m1 && isDigitCh m2 && isDigitCh d1 && isDigitCh d2 then
      let y := ((chVal y1 * 10 + chVal y2) * 10 + chVal y3) * 10 + chVal y4
      let m := chVal m1 * 10 + chVal m2
      let d := chVal d1 * 10 + chVal d2
      if 1 ≤ m && m ≤ 12 && 1 ≤ d && d ≤ 31 then some ⟨y, m, d⟩ else none
    else none
  | _ => none

/-- Bounded fuel computation of the little-endian decimal digits of a
natural number. -/
def toDigitsRevAux : Nat → Nat → List Nat
  | 0, _ => []
  | fuel + 1, n => if n = 0 then [] else n % 10 :: toDigitsRevAux fuel (n / 10)

/-- Little-endian decimal digits of a natural number (empty for zero). -/
def toDigitsRev (n : Nat) : List Nat := toDigitsRevAux n n

/-- The ASCII character of a decimal digit. -/
def digitCh (d : Nat) : Char := Char.ofNat (48 + d)

/-- Decimal representation of a natural number, modelling Python str. -/
def natRepr (n : Nat) : String :=
  if n = 0 then "0" else String.mk ((toDigitsRev n).reverse.map digitCh)

/-- Model of the Python format specifier 04d: the decimal representation,
zero-padded on the left to at least four characters. -/
def fmt04 (n : Nat) : String :=
  String.mk (List.replicate (4 - (natRepr n).length) '0') ++ natRepr n

/-- Model of the Python format specifier 02d, as used by strftime for
months and days. -/
def fmt02 (n : Nat) : String :=
  String.mk (List.replicate (2 - (natRepr n).length) '0') ++ natRepr n

/-- Model of date.strftime applied to the format string of robust_date:
year, month and day in ISO YYYY-MM-DD form. -/
def strftimeYmd (d : PyDate) : String :=
  fmt04 d.year ++ "-" ++ fmt02 d.month ++ "-" ++ fmt02 d.day

/-- Embedding of robust_date: None when pd.isna(entry); otherwise
dateparse(entry).strftime, catching the AttributeError of a failed parse
into None.  Date columns hold text, so the input is text or missing. -/
def robust_date (entry : Option String) : Option String :=
  match entry with
  | none => none
  | some s => (dateparse s).map strftimeYmd

/-- The date-collecting loop of get_earlier_date: skip missing entries,
format the parseable ones, skip the unparseable ones. -/
def collectDates : List (Option String) → List String
  | [] => []
  | none :: rest => collectDates rest
  | some s :: rest =>
    match dateparse s with
    | some d => strftimeYmd d :: collectDates rest
    | none => collectDates rest

/-- Python comparison of two strings: lexicographic on code points. -/
def charListLt : List Char → List Char → Bool
  | _, [] => false
  | [], _ :: _ => true
  | a :: as, b :: bs =>
    a.toNat < b.toNat || (a.toNat == b.toNat && charListLt as bs)

/-- Python s < t on strings. -/
def strLt (a b : String) : Bool := charListLt a.data b.data

/-- Python s <= t on strings. -/
def strLe (a b : String) : Bool := !strLt b a

/-- One step of the Python min builtin: keep the current value unless the
candidate is strictly smaller. -/
def strMin (a b : String) : String := if strLt b a then b else a

/-- Embedding of get_earlier_date: the Python min of the collected date
strings; none models the ValueError that min raises on an empty list. -/
def get_earlier_date (entries : List (Option String)) : Option String :=
  match collectDates entries with
  | [] => none
  | d :: ds => some (ds.foldl strMin d)

/-- Python truthiness of an optional boolean: None and False are falsy. -/
def pyTruthy : Option Bool → Bool
  | some true => true
  | _ => false

/-- Embedding of safe_recurrence_date: casts the flag with robust_bool and
the date with robust_date, raises ValueError (the error case) when the two
contradict each other, and returns the cast date otherwise. -/
def safe_recurrence_date (recFlag : Cell) (date : Option String) :
    Except String (Option String) :=
  let r := pyTruthy (robust_bool recFlag)
  let d := robust_date date
  if !r && d.isSome then
    Except.error "Date of recurrence is set, but no recurrence is reported."
  else if r && !d.isSome then
    Except.error "Recurrence is reported, but no date of recurrence is set."
  else
    Except.ok d

/-- re.match of the pattern T, digit, optional a to c or NOS: as a prefix
match whose only mandatory part is the initial T and digit, it succeeds
exactly when the text starts with T followed by a digit, and group 1 is
that digit. -/
def tPatternMatch (s : String) : Option Nat :=
  match s.data with
  | 'T' :: c :: _ => if isDigitCh c then some (chVal c) else none
  | _ => none

/-- Embedding of t_stage_mapping (surgery): the digit of the pathological
text when it matches the T pattern, otherwise robust_int of the clinical
code.  The pathological column holds text, so that input is text or
missing. -/
def t_stage_mapping (clinical : Cell) (pathological : Option String) :
    Option Int :=
  match pathological with
  | some s =>
    match tPatternMatch s with
    | some d => some (d : Int)
    | none => robust_int clinical
  | none => robust_int clinical

/-- Embedding of t_stage_prefix (surgery): p when the pathological text
matches the T pattern, c otherwise; the clinical code is ignored, exactly
as in the source. -/
def t_stage_prefix (_clinical : Cell) (pathological : Option String) :
    String :=
  match pathological with
  | some s =>
    match tPatternMatch s with
    | some _ => "p"
    | none => "c"
  | none => "c"

/-- The N-stage lookup dictionary of mapping_radiotherapy. -/
def nStageTable : Int → Option Int
  | 0 => some 0
  | 1 => some 1
  | 2 => some 2
  | 3 => some 2
  | 4 => some 2
  | 5 => some 3
  | 9 => some 0
  | _ => none

/-- The M-stage lookup dictionary of mapping_radiotherapy. -/
def mStageTable : Int → Option Int
  | 0 => some 0
  | 1 => some 1
  | 9 => some (-1)
  | _ => none

/-- Embedding of n_stage_mapping (radiotherapy): dictionary lookup of
int(entry); ValueError and TypeError are caught into None, but a parseable
code outside the dictionary raises an uncaught KeyError (the error case). -/
def n_stage_mapping (entry : Cell) : Except String (Option Int) :=
  match pyInt entry with
  | none => Except.ok none
  | some n =>
    match nStageTable n with
    | some v => Except.ok (some v)
    | none => Except.error "KeyError"

/-- Embedding of m_stage_mapping (radiotherapy): dictionary lookup of
int(entry); ValueError and TypeError are caught into None, but a parseable
code outside the dictionary raises an uncaught KeyError (the error case). -/
def m_stage_mapping (entry : Cell) : Except String (Option Int) :=
  match pyInt entry with
  | none => Except.ok none
  | some n =>
    match mStageTable n with
    | some v => Except.ok (some v)
    | none => Except.error "KeyError"

/-- The subsite lookup dictionary: numeric tumour location code to ICD
code. -/
def subsiteTable : Int → Option String
  | 16 => some "C13.0"
  | 17 => some "C12"
  | 18 => some "C13.2"
  | 19 => some "C32.1"
  | 20 => some "C32.0"
  | 21 => some "C32.2"
  | 221 => some "C32.0"
  | _ => none

/-- The location lookup dictionary: numeric tumour location code to
anatomic location. -/
def locationTable : Int → Option String
  | 16 => some "hypopharynx"
  | 17 => some "hypopharynx"
  | 18 => some "hypopharynx"
  | 19 => some "larynx"
  | 20 => some "larynx"
  | 21 => some "larynx"
  | 221 => some "larynx"
  | _ => none

/-- Embedding of subsite_mapping: dictionary lookup of int(entry), with
the same KeyError behaviour as the stage mappings. -/
def subsite_mapping (entry : Cell) : Except String (Option String) :=
  match pyInt entry with
  | none => Except.ok none
  | some n =>
    match subsiteTable n with
    | some v => Except.ok (some v)
    | none => Except.error "KeyError"

/-- Embedding of location_mapping: dictionary lookup of int(entry), with
the same KeyError behaviour as the stage mappings. -/
def location_mapping (entry : Cell) : Except String (Option String) :=
  match pyInt entry with
  | none => Except.ok none
  | some n =>
    match locationTable n with
    | some v => Except.ok (some v)
    | none => Except.error "KeyError"

/-- The SUBSITES dictionary of scripts/shared.py: ICD code to location and
subsite description. -/
def SUBSITES : List (String × String × String) :=
  [("C00.4", "oral cavity", "Lower lip, inner aspect"),
   ("C01", "oropharynx", "Base of Tongue"),
   ("C01.9", "oropharynx", "Base of Tongue"),
   ("C02", "oral cavity", "Tongue"),
   ("C02.0", "oral cavity", "Dorsal surface of tongue"),
   ("C02.1", "oral cavity", "Border of tongue"),
   ("C02.2", "oral cavity", "Ventral surface of tongue"),
   ("C02.3", "oral cavity", "Anterior two-thirds of tongue"),
   ("C02.4", "oral cavity", "Lingual tonsil"),
   ("C02.8", "oral cavity", "Overlapping lesion of tongue"),
   ("C02.9", "oral cavity", "Tongue, unspecified"),
   ("C03", "oral cavity", "Gum"),
   ("C03.0", "oral cavity", "Upper gum"),
   ("C03.1", "oral cavity", "Lower gum"),
   ("C03.9", "oral cavity", "Gum, unspecified"),
   ("C04", "oral cavity", "Floor of Mouth"),
   ("C04.0", "oral cavity", "Anterior floor of mouth"),
   ("C04.1", "oral cavity", "Lateral floor of mouth"),
   ("C04.8", "oral cavity", "Overlapping lesion of floor of mouth"),
   ("C04.9", "oral cavity", "Floor of mouth, unspecified"),
   ("C05", "oral cavity", "Palate"),
   ("C05.0", "oral cavity", "Hard palate"),
   ("C05.1", "oral cavity", "Soft palate"),
   ("C05.2", "oral cavity", "Uvula"),
   ("C05.8", "oral cavity", "Overlapping lesion of palate"),
   ("C05.9", "oral cavity", "Palate, unspecified"),
   ("C06", "oral cavity", "Other and unspecified parts of mouth"),
   ("C06.0", "oral cavity", "Cheek mucosa"),
   ("C06.1", "oral cavity", "Vestibule of mouth"),
   ("C06.2", "oral cavity", "Retromolar area"),
   ("C06.8", "oral cavity",
    "Overlapping lesion of other and unspecified parts of mouth"),
   ("C06.9", "oral cavity", "Mouth, unspecified"),
   ("C09", "oropharynx", "Tonsil"),
   ("C09.0", "oropharynx", "Tonsillar fossa"),
   ("C09.1", "oropharynx", "Tonsillar pillar (anterior)(posterior)"),
   ("C09.8", "oropharynx", "Overlapping lesion of tonsil"),
   ("C09.9", "oropharynx", "Tonsil, unspecified"),
   ("C10", "oropharynx", "Oropharynx"),
   ("C10.0", "oropharynx", "Vallecula"),
   ("C10.1", "oropharynx", "Anterior surface of epiglottis"),
   ("C10.2", "oropharynx", "Lateral wall of oropharynx"),
   ("C10.3", "oropharynx", "Posterior wall of oropharynx"),
   ("C10.4", "oropharynx", "Branchial cleft"),
   ("C10.8", "oropharynx", "Overlapping lesion of oropharynx"),
   ("C10.9", "oropharynx", "Oropharynx, unspecified"),
   ("C12", "hypopharynx", "Piriform sinus"),
   ("C12.9", "hypopharynx", "Piriform sinus"),
   ("C13", "hypopharynx", "Hypopharynx"),
   ("C13.0", "hypopharynx", "Postcricoid region"),
   ("C13.1", "hypopharynx", "Aryepiglottic fold, hypopharyngeal aspect"),
   ("C13.2", "hypopharynx", "Posterior wall of hypopharynx"),
   ("C13.8", "hypopharynx", "Overlapping lesion of hypopharynx"),
   ("C13.9", "hypopharynx", "Hypopharynx, unspecified"),
   ("C32", "larynx", "Larynx"),
   ("C32.0", "larynx", "Glottis"),
   ("C32.1", "larynx", "Supraglottis"),
   ("C32.2", "larynx", "Subglottis"),
   ("C32.3", "larynx", "Laryngeal cartilage"),
   ("C32.8", "larynx", "Overlapping lesion of larynx"),
   ("C32.9", "larynx", "Larynx, unspecified")]

/-- Embedding of icd_to_location (scripts/shared.py): the location part of
the SUBSITES entry, or unknown when the ICD code is absent. -/
def icd_to_location (icd : String) : String :=
  match SUBSITES.lookup icd with
  | some p => p.1
  | none => "unknown"

/-- One invocation of the closure produced by create_id_counter: format
the counter after the prefix and increment the counter. -/
def id_counter_step (pfx : String) (counter : Nat) : String × Nat :=
  (pfx ++ fmt04 counter, counter + 1)

/-- The counter state of the closure after k invocations, starting from
start. -/
def counterAfter (pfx : String) (start : Nat) : Nat → Nat
  | 0 => start
  | k + 1 => (id_counter_step pfx (counterAfter pfx start k)).2

/-- The string returned by the n-th invocation (1-indexed) of the closure
produced by create_id_counter. -/
def nthId (pfx : String) (start : Nat) (n : Nat) : String :=
  (id_counter_step pfx (counterAfter pfx start (n - 1))).1

/-- A canonical typed value of the output table. -/
inductive Value where
  | null
  | vbool (b : Bool)
  | vint (n : Int)
  | vstr (s : String)
deriving DecidableEq

/-- Modelled from the spec: a raw row of the radiotherapy dataset,
restricted to the columns this development needs (the external lyproxify
Row Transformer that iterates rows is not part of this repository).  Date
columns hold text or are missing; code columns hold arbitrary cells. -/
structure RawRow where
  rtstart : Option String
  rteind : Option String
  alcohol : Cell
  nstad : Cell
deriving DecidableEq

/-- Modelled from the spec: the Row Transformer resolves every leaf of the
mapping for one raw row: the stateful ID leaf, the constant institution
leaf, the earliest-date leaf, the boolean-cast leaf and the N-stage leaf,
in mapping order, and returns the advanced counter state. -/
def transformRow (pfx : String) (counter : Nat) (row : RawRow) :
    List Value × Nat :=
  ([Value.vstr (pfx ++ fmt04 counter),
    Value.vstr "University Medical Center Groningen",
    (match get_earlier_date [row.rtstart, row.rteind] with
     | some d => Value.vstr d
     | none => Value.null),
    (match robust_bool row.alcohol with
     | some b => Value.vbool b
     | none => Value.null),
    (match n_stage_mapping row.nstad with
     | Except.ok (some v) => Value.vint v
     | _ => Value.null)],
   counter + 1)

/-- Modelled from the spec: one transformation run is a fold over the raw
rows in input order, threading the ID counter state. -/
def runRows (pfx : String) (counter : Nat) : List RawRow → List (List Value)
  | [] => []
  | row :: rest =>
    (transformRow pfx counter row).1 ::
      runRows pfx (transformRow pfx counter row).2 rest

/-- Modelled from the spec: running the transformation with a freshly
constructed ID Generator: the counter starts at start. -/
def runPipeline (pfx : String) (start : Nat) (rows : List RawRow) :
    List (List Value) :=
  runRows pfx start rows

/-- The numeric value of a character list read as a decimal numeral with
leading zeros allowed, starting from an accumulator. -/
def charsValFrom (acc : Nat) (cs : List Char) : Nat :=
  cs.foldl (fun a c => 10 * a + (c.toNat - 48)) acc

/-- Modelled from the spec: re-running the transformer twice on the same
raw dataset, each run with a freshly constructed ID Generator starting at
start. -/
def runTwice (pfx : String) (start : Nat) (rows : List RawRow) :
    List (List Value) × List (List Value) :=
  (runPipeline pfx start rows, runPipeline pfx start rows)

/-- C5: robust_bool returns null on missing input and on non-numeric
non-missing input, and otherwise follows numeric truthiness: a value equal
to zero yields false and every nonzero numeric value yields true. -/
theorem robust_bool_truthiness (entry : Cell) :
    (entry = Cell.missing → robust_bool entry = none) ∧
    (entry ≠ Cell.missing → pyInt entry = none → robust_bool entry = none) ∧
    (∀ n : Int, pyInt entry = some n → n = 0 →
      robust_bool entry = some false) ∧
    (∀ n : Int, pyInt entry = some n → n ≠ 0 →
      robust_bool entry = some true) := by
  cases entry with
  | missing => simp [robust_bool, pyInt]
  | str s =>
    cases h : parsePyInt s <;>
      simp_all [robust_bool, pyInt, bne_iff_ne]
  | int n =>
    simp [robust_bool, pyInt, bne_iff_ne]

/-- Witness for C5 at the four inputs of the specification examples. -/
theorem robust_bool_truthiness_witness :
    robust_bool Cell.missing = none ∧
    robust_bool (Cell.str "0") = some false ∧
    robust_bool (Cell.str "1") = some true ∧
    robust_bool (Cell.str "x") = none :=
  ⟨(robust_bool_truthiness Cell.missing).1 rfl,
   (robust_bool_truthiness (Cell.str "0")).2.2.1 0 (by decide) rfl,
   (robust_bool_truthiness (Cell.str "1")).2.2.2 1 (by decide) (by decide),
   (robust_bool_truthiness (Cell.str "x")).2.1 (by decide) (by decide)⟩

/-- C8 counterexample: at the non-missing, non-numeric input x the source
catches the ValueError of int(entry) and returns null; it does not raise a
structural error there. -/
theorem is_smaller_or_nan_returns_null_cex :
    is_smaller_or_nan (Cell.str "x") 5 = none := by decide

/-- C8 amended: is_smaller_or_nan never raises: it returns true on every
missing input, null on every non-missing non-numeric input (the ValueError
of int(entry) is caught), and int(entry) < threshold on numeric input. -/
theorem is_smaller_or_nan_total (entry : Cell) (threshold : Int) :
    (entry = Cell.missing → is_smaller_or_nan entry threshold = some true) ∧
    (entry ≠ Cell.missing → pyInt entry = none →
      is_smaller_or_nan entry threshold = none) ∧
    (∀ n : Int, pyInt entry = some n →
      is_smaller_or_nan entry threshold = some (decide (n < threshold))) := by
  cases entry with
  | missing => simp [is_smaller_or_nan, pyInt]
  | str s => cases h : parsePyInt s <;> simp_all [is_smaller_or_nan, pyInt]
  | int n => simp [is_smaller_or_nan, pyInt]

/-- Witness for C8 amended at a missing, a non-numeric and a numeric
input. -/
theorem is_smaller_or_nan_total_witness :
    is_smaller_or_nan Cell.missing 5 = some true ∧
    is_smaller_or_nan (Cell.str "x") 5 = none ∧
    is_smaller_or_nan (Cell.str "3") 5 = some true :=
  ⟨(is_smaller_or_nan_total Cell.missing 5).1 rfl,
   (is_smaller_or_nan_total (Cell.str "x") 5).2.1 (by decide) (by decide),
   (is_smaller_or_nan_total (Cell.str "3") 5).2.2 3 (by decide)⟩

/-- C4 counterexample: the numeric code 7 lies outside the N-stage lookup
table, yet n_stage_mapping raises a KeyError there instead of returning
null; likewise m_stage_mapping at the numeric code 2. -/
theorem n_stage_mapping_keyerror_cex :
    n_stage_mapping (Cell.int 7) = Except.error "KeyError" ∧
    n_stage_mapping (Cell.int 7) ≠ Except.ok none ∧
    m_stage_mapping (Cell.int 2) = Except.error "KeyError" :=
  ⟨rfl, fun h => Except.noConfusion h, rfl⟩

/-- C4 amended: the N-stage remap sends the raw codes 2, 3 and 4 to
canonical 2, code 9 to 0 and code 5 to 3; the M-stage remap sends raw code
9 to -1 and raw code 0 to 0; non-numeric input gives null in both remaps;
a numeric code outside the respective lookup table raises a KeyError
instead of returning null. -/
theorem stage_remap_table (entry : Cell) :
    (pyInt entry = none → n_stage_mapping entry = Except.ok none ∧
      m_stage_mapping entry = Except.ok none) ∧
    (pyInt entry = some 2 → n_stage_mapping entry = Except.ok (some 2)) ∧
    (pyInt entry = some 3 → n_stage_mapping entry = Except.ok (some 2)) ∧
    (pyInt entry = some 4 → n_stage_mapping entry = Except.ok (some 2)) ∧
    (pyInt entry = some 9 → n_stage_mapping entry = Except.ok (some 0)) ∧
    (pyInt entry = some 5 → n_stage_mapping entry = Except.ok (some 3)) ∧
    (pyInt entry = some 9 → m_stage_mapping entry = Except.ok (some (-1))) ∧
    (pyInt entry = some 0 → m_stage_mapping entry = Except.ok (some 0)) ∧
    (∀ n : Int, pyInt entry = some n → nStageTable n = none →
      n_stage_mapping entry = Except.error "KeyError") ∧
    (∀ n : Int, pyInt entry = some n → mStageTable n = none →
      m_stage_mapping entry = Except.error "KeyError") :=
  ⟨fun h => ⟨by simp [n_stage_mapping, h], by simp [m_stage_mapping, h]⟩,
   fun h => by simp [n_stage_mapping, h, nStageTable],
   fun h => by simp [n_stage_mapping, h, nStageTable],
   fun h => by simp [n_stage_mapping, h, nStageTable],
   fun h => by simp [n_stage_mapping, h, nStageTable],
   fun h => by simp [n_stage_mapping, h, nStageTable],
   fun h => by simp [m_stage_mapping, h, mStageTable],
   fun h => by simp [m_stage_mapping, h, mStageTable],
   fun n h hn => by simp [n_stage_mapping, h, hn],
   fun n h hn => by simp [m_stage_mapping, h, hn]⟩

/-- Witness for C4 amended at the raw code 9, where the two remaps stay
distinct: N-stage 0 and M-stage -1. -/
theorem stage_remap_table_witness :
    n_stage_mapping (Cell.int 9) = Except.ok (some 0) ∧
    m_stage_mapping (Cell.int 9) = Except.ok (some (-1)) :=
  ⟨(stage_remap_table (Cell.int 9)).2.2.2.2.1 rfl,
   (stage_remap_table (Cell.int 9)).2.2.2.2.2.2.1 rfl⟩

/-- C2: when the pathological text is non-missing and matched by the T
pattern of re.match, t_stage_mapping returns the extracted digit and
 t_stage_prefix returns p; otherwise t_stage_mapping falls back to the
integer cast of the clinical code (null when unparseable) and the prefix
is c; the prefix is p exactly when the pathological value determined the
stage. -/
theorem t_stage_pathological_priority (clinical : Cell)
    (pathological : Option String) :
    (∀ s d, pathological = some s → tPatternMatch s = some d →
      t_stage_mapping clinical pathological = some (d : Int) ∧
       t_stage_prefix clinical pathological = "p") ∧
    ((∀ s, pathological = some s → tPatternMatch s = none) →
      t_stage_mapping clinical pathological = robust_int clinical ∧
       t_stage_prefix clinical pathological = "c") ∧
    ( t_stage_prefix clinical pathological = "p" ↔
      ∃ s d, pathological = some s ∧ tPatternMatch s = some d) := by
  cases pathological with
  | none => simp [t_stage_mapping, t_stage_prefix]
  | some s =>
    cases h : tPatternMatch s with
    | none => simp_all [t_stage_mapping, t_stage_prefix]
    | some d =>
      refine ⟨?_, ?_, ?_⟩
      · rintro s' d' heq hm
        injection heq with heq; subst heq
        rw [h] at hm; injection hm with hm; subst hm
        exact ⟨by simp [t_stage_mapping, h], by simp [ t_stage_prefix, h]⟩
      · intro H
        have := H s rfl
        rw [h] at this; cases this
      · simp [ t_stage_prefix, h]

/-- Witness for C2 at the pathological text T2b over the clinical code 3:
the pathological digit 2 wins and the prefix is p. -/
theorem t_stage_pathological_priority_witness :
    t_stage_mapping (Cell.str "3") (some "T2b") = some 2 ∧
    t_stage_prefix (Cell.str "3") (some "T2b") = "p" :=
  (t_stage_pathological_priority (Cell.str "3") (some "T2b")).1
    "T2b" 2 rfl (by decide)

/-- C1: with a recurrence flag that boolean-casts to a proper boolean,
safe_recurrence_date raises the consistency error exactly when the flag is
false but the date is parseable or the flag is true but the date is
missing or unparseable; with flag true and a parseable date it returns the
parsed date formatted as an ISO YYYY-MM-DD string, and with flag false and
a missing date it returns null. -/
theorem safe_recurrence_date_consistency (recFlag : Cell)
    (date : Option String) (b : Bool) (hb : robust_bool recFlag = some b) :
    ((∃ e, safe_recurrence_date recFlag date = Except.error e) ↔
      ((b = false ∧ (robust_date date).isSome = true) ∨
       (b = true ∧ robust_date date = none))) ∧
    (∀ s d, b = true → date = some s → dateparse s = some d →
      safe_recurrence_date recFlag date =
        Except.ok (some (strftimeYmd d))) ∧
    (b = false → date = none →
      safe_recurrence_date recFlag date = Except.ok none) := by
  cases b <;> cases hd : robust_date date <;>
    simp_all [safe_recurrence_date, pyTruthy, hb, hd, robust_date]

/-- Witness for C1 at the example pairs of the specification: flag true
with date 2020-01-01 returns the date; flag false with the same date
raises. -/
theorem safe_recurrence_date_consistency_witness :
    safe_recurrence_date (Cell.int 1) (some "2020-01-01") =
      Except.ok (some "2020-01-01") ∧
    (∃ e, safe_recurrence_date (Cell.int 0) (some "2020-01-01") =
      Except.error e) :=
  ⟨((safe_recurrence_date_consistency (Cell.int 1) (some "2020-01-01") true
      (by decide)).2.1 "2020-01-01" ⟨2020, 1, 1⟩ rfl rfl (by decide)).trans
    (congrArg (fun s => Except.ok (some s)) (by decide)),
   ((safe_recurrence_date_consistency (Cell.int 0) (some "2020-01-01") false
      (by decide)).1).2 (Or.inl ⟨rfl, by decide⟩)⟩

/-- C10: when the recurrence flag boolean-casts to null, the null flag is
treated as false: safe_recurrence_date raises the consistency error
whenever the date is parseable and returns null whenever the date is
missing or unparseable. -/
theorem safe_recurrence_date_null_flag (recFlag : Cell)
    (date : Option String) (hb : robust_bool recFlag = none) :
    ((robust_date date).isSome = true →
      safe_recurrence_date recFlag date = Except.error
        "Date of recurrence is set, but no recurrence is reported.") ∧
    (robust_date date = none →
      safe_recurrence_date recFlag date = Except.ok none) := by
  cases hd : robust_date date <;>
    simp_all [safe_recurrence_date, pyTruthy, hb, hd]

/-- Witness for C10 at the unparseable flag x: a parseable date raises,
and a missing date returns null. -/
theorem safe_recurrence_date_null_flag_witness :
    safe_recurrence_date (Cell.str "x") (some "2020-01-01") = Except.error
      "Date of recurrence is set, but no recurrence is reported." ∧
    safe_recurrence_date (Cell.str "x") none = Except.ok none :=
  ⟨(safe_recurrence_date_null_flag (Cell.str "x") (some "2020-01-01")
      (by decide)).1 (by decide),
   (safe_recurrence_date_null_flag (Cell.str "x") none (by decide)).2 rfl⟩

/-- The lexicographic comparison is irreflexive. -/
theorem charListLt_irrefl (cs : List Char) : charListLt cs cs = false := by
  induction cs with
  | nil => rfl
  | cons c cs ih => simp [charListLt, ih]

/-- The lexicographic comparison is asymmetric. -/
theorem charListLt_asymm (a b : List Char) :
    charListLt a b = true → charListLt b a = false := by
  induction a generalizing b with
  | nil =>
    intro h
    cases b with
    | nil => simp [charListLt] at h
    | cons y ys => rfl
  | cons x xs ih =>
    intro h
    cases b with
    | nil => simp [charListLt] at h
    | cons y ys =>
      simp only [charListLt, Bool.or_eq_true, Bool.and_eq_true,
        decide_eq_true_eq, beq_iff_eq] at h ⊢
      simp only [Bool.or_eq_false_iff, Bool.and_eq_false_iff]
      rcases h with h | ⟨hEq, hRec⟩
      · constructor
        · simp only [decide_eq_false_iff_not]; omega
        · left; simp only [beq_eq_false_iff_ne, ne_eq]; omega
      · constructor
        · simp only [decide_eq_false_iff_not]; omega
        · right; exact ih ys hRec

/-- The complement of the lexicographic comparison is transitive. -/
theorem charListLt_le_trans (a b c : List Char) :
    charListLt b a = false → charListLt c b = false →
    charListLt c a = false := by
  induction a generalizing b c with
  | nil =>
    intro _ _
    cases c with
    | nil => rfl
    | cons z zs =>
      cases b with
      | nil => simp [charListLt] at *
      | cons y ys => simp [charListLt] at *
  | cons x xs ih =>
    intro h1 h2
    cases b with
    | nil => simp [charListLt] at h1
    | cons y ys =>
      cases c with
      | nil => simp [charListLt] at h2
      | cons z zs =>
        simp only [charListLt, Bool.or_eq_false_iff, Bool.and_eq_false_iff,
          decide_eq_false_iff_not, beq_eq_false_iff_ne, ne_eq] at h1 h2 ⊢
        obtain ⟨hyx, h1r⟩ := h1
        obtain ⟨hzy, h2r⟩ := h2
        constructor
        · omega
        · by_cases hzx : z.toNat = x.toNat
          · right
            have hyEq : y.toNat = x.toNat := by omega
            have hzEq : z.toNat = y.toNat := by omega
            rcases h1r with h1r | h1r
            · omega
            rcases h2r with h2r | h2r
            · omega
            exact ih ys zs h1r h2r
          · left; exact hzx

/-- The string order is reflexive. -/
theorem strLe_refl (a : String) : strLe a a = true := by
  simp [strLe, strLt, charListLt_irrefl]

/-- One Python min step is below its first argument. -/
theorem strMin_le_left (a b : String) : strLe (strMin a b) a = true := by
  unfold strMin
  by_cases h : strLt b a = true
  · simp only [h, if_true]
    simp only [strLe, strLt] at h ⊢
    simp [charListLt_asymm _ _ h]
  · simp only [Bool.not_eq_true] at h
    simp [h, strLe_refl]

/-- One Python min step is below its second argument. -/
theorem strMin_le_right (a b : String) : strLe (strMin a b) b = true := by
  unfold strMin
  by_cases h : strLt b a = true
  · simp [h, strLe_refl]
  · simp only [Bool.not_eq_true] at h
    simp [h, strLe, h]

/-- One Python min step returns one of its arguments. -/
theorem strMin_eq_or (a b : String) : strMin a b = a ∨ strMin a b = b := by
  unfold strMin
  by_cases h : strLt b a = true
  · right; simp [h]
  · left; simp only [Bool.not_eq_true] at h; simp [h]

/-- The string order is transitive. -/
theorem strLe_trans (a b c : String) :
    strLe a b = true → strLe b c = true → strLe a c = true := by
  simp only [strLe, strLt, Bool.not_eq_true']
  intro h1 h2
  exact charListLt_le_trans a.data b.data c.data h1 h2

/-- The Python min fold returns a member of its inputs that is below all
of them. -/
theorem foldl_strMin_spec (xs : List String) (x : String) :
    (xs.foldl strMin x = x ∨ xs.foldl strMin x ∈ xs) ∧
    strLe (xs.foldl strMin x) x = true ∧
    ∀ y ∈ xs, strLe (xs.foldl strMin x) y = true := by
  induction xs generalizing x with
  | nil => simp [strLe_refl]
  | cons y ys ih =>
    obtain ⟨ihMem, ihLe, ihAll⟩ := ih (strMin x y)
    refine ⟨?_, ?_, ?_⟩
    · simp only [List.foldl_cons, List.mem_cons]
      rcases ihMem with h | h
      · rcases strMin_eq_or x y with h2 | h2
        · left; rw [h, h2]
        · right; left; rw [h, h2]
      · right; right; exact h
    · simp only [List.foldl_cons]
      exact strLe_trans _ _ _ ihLe (strMin_le_left x y)
    · intro z hz
      simp only [List.foldl_cons]
      rcases List.mem_cons.mp hz with rfl | hz
      · exact strLe_trans _ _ _ ihLe (strMin_le_right x z)
      · exact ihAll z hz

/-- The collecting loop of get_earlier_date computes the filterMap of
robust_date over the inputs. -/
theorem collectDates_eq_filterMap (entries : List (Option String)) :
    collectDates entries = entries.filterMap robust_date := by
  induction entries with
  | nil => rfl
  | cons e rest ih =>
    cases e with
    | none => simpa [collectDates, robust_date] using ih
    | some s =>
      cases h : dateparse s <;>
        simp [collectDates, robust_date, h, ih]

/-- C3: get_earlier_date raises (returns no value) exactly when no input
is a parseable non-missing date, and otherwise returns the minimum, in
string order, of the dates obtained from the parseable non-missing inputs,
ignoring missing and unparseable entries. -/
theorem get_earlier_date_min (entries : List (Option String)) :
    (get_earlier_date entries = none ↔
      ∀ e ∈ entries, robust_date e = none) ∧
    (∀ m, get_earlier_date entries = some m →
      m ∈ entries.filterMap robust_date ∧
      ∀ d ∈ entries.filterMap robust_date, strLe m d = true) := by
  unfold get_earlier_date
  rw [collectDates_eq_filterMap]
  cases h : entries.filterMap robust_date with
  | nil =>
    simp only [List.filterMap_eq_nil_iff] at h
    refine ⟨⟨fun _ => h, fun _ => rfl⟩, fun m hm => by cases hm⟩
  | cons d ds =>
    constructor
    · constructor
      · intro hc; cases hc
      · intro hall
        have : entries.filterMap robust_date = [] := by
          simp only [List.filterMap_eq_nil_iff]; exact hall
        rw [this] at h; cases h
    · intro m hm
      injection hm with hm
      obtain ⟨hMem, hLe, hAll⟩ := foldl_strMin_spec ds d
      subst hm
      constructor
      · rcases hMem with h2 | h2
        · rw [h2]; exact List.mem_cons_self d ds
        · exact List.mem_cons_of_mem d h2
      · intro y hy
        rcases List.mem_cons.mp hy with rfl | hy
        · exact hLe
        · exact hAll y hy

/-- Witness for C3 at the example of the specification: the minimum of
2020-03-01, a missing entry and 2020-01-15 is 2020-01-15. -/
theorem get_earlier_date_min_witness :
    get_earlier_date [some "2020-03-01", none, some "2020-01-15"] =
      some "2020-01-15" ∧
    "2020-01-15" ∈
      ([some "2020-03-01", none, some "2020-01-15"].filterMap
        robust_date) ∧
    strLe "2020-01-15" "2020-03-01" = true := by
  have h := (get_earlier_date_min
    [some "2020-03-01", none, some "2020-01-15"]).2 "2020-01-15" (by decide)
  exact ⟨by decide, h.1, h.2 "2020-03-01" (by decide)⟩

/-- The counter of the ID closure advances by one per invocation. -/
theorem counterAfter_eq (pfx : String) (start k : Nat) :
    counterAfter pfx start k = start + k := by
  induction k with
  | zero => rfl
  | succ k ih => simp [counterAfter, id_counter_step, ih]; omega

/-- Leading zero characters do not change the decimal value. -/
theorem charsValFrom_replicate_zero (k : Nat) (l : List Char) :
    charsValFrom 0 (List.replicate k '0' ++ l) = charsValFrom 0 l := by
  induction k with
  | zero => rfl
  | succ k ih =>
    simpa [charsValFrom, List.replicate_succ] using ih

/-- Code point of a digit character. -/
theorem digitCh_toNat (d : Nat) (h : d < 10) :
    (digitCh d).toNat = 48 + d := by
  revert h
  revert d
  decide

/-- Every digit produced by the fuel recursion is below ten. -/
theorem toDigitsRevAux_lt (fuel : Nat) :
    ∀ n, ∀ x ∈ toDigitsRevAux fuel n, x < 10 := by
  induction fuel with
  | zero => intro n x hx; cases hx
  | succ fuel ih =>
    intro n x hx
    by_cases h : n = 0
    · simp [toDigitsRevAux, h] at hx
    · simp only [toDigitsRevAux, h, if_false, List.mem_cons] at hx
      rcases hx with rfl | hx
      · exact Nat.mod_lt n (by omega)
      · exact ih (n / 10) x hx

/-- Reading the produced digit characters back yields the number. -/
theorem charsValFrom_digits (fuel : Nat) :
    ∀ n acc, n ≤ fuel →
      charsValFrom acc ((toDigitsRevAux fuel n).reverse.map digitCh) =
        acc * 10 ^ (toDigitsRevAux fuel n).length + n := by
  induction fuel with
  | zero =>
    intro n acc hn
    have : n = 0 := by omega
    subst this
    simp [toDigitsRevAux, charsValFrom]
  | succ fuel ih =>
    intro n acc hn
    by_cases h : n = 0
    · subst h; simp [toDigitsRevAux, charsValFrom]
    · simp only [toDigitsRevAux, h, if_false]
      have hdiv : n / 10 ≤ fuel := by
        have := Nat.div_lt_self (Nat.pos_of_ne_zero h) (by omega : 1 < 10)
        omega
      have hrec := ih (n / 10) acc hdiv
      simp only [List.reverse_cons, List.map_append, List.map_cons,
        List.map_nil, List.length_cons]
      unfold charsValFrom at hrec ⊢
      rw [List.foldl_append, hrec]
      simp only [List.foldl_cons, List.foldl_nil]
      rw [digitCh_toNat (n % 10) (Nat.mod_lt n (by omega))]
      have hmod : 48 + n % 10 - 48 = n % 10 := by omega
      rw [hmod, pow_succ]
      have := Nat.div_add_mod n 10
      ring_nf
      omega

/-- The decimal value of the representation is the number itself. -/
theorem charsValFrom_natRepr (n : Nat) :
    charsValFrom 0 (natRepr n).data = n := by
  by_cases h : n = 0
  · subst h; decide
  · unfold natRepr
    simp only [h, if_false]
    have := charsValFrom_digits n n 0 (Nat.le_refl n)
    unfold toDigitsRev
    simpa using this

/-- The decimal value of the zero-padded representation is the number
itself. -/
theorem charsValFrom_fmt04 (n : Nat) :
    charsValFrom 0 (fmt04 n).data = n := by
  unfold fmt04
  rw [String.data_append]
  show charsValFrom 0 (List.replicate _ '0' ++ (natRepr n).data) = n
  rw [charsValFrom_replicate_zero, charsValFrom_natRepr]

/-- Zero-padded decimal formatting is injective. -/
theorem fmt04_injective (a b : Nat) (h : fmt04 a = fmt04 b) : a = b := by
  have := congrArg (fun s => charsValFrom 0 s.data) h
  simpa [charsValFrom_fmt04] using this

/-- Closed form of the n-th invocation of the ID closure. -/
theorem nthId_eq (pfx : String) (start n : Nat) :
    nthId pfx start n = pfx ++ fmt04 (start + (n - 1)) := by
  unfold nthId id_counter_step
  rw [counterAfter_eq]

/-- C6: the n-th invocation (n at least 1) of the closure returned by
create_id_counter returns the prefix followed by start + n - 1 zero-padded
to at least four digits; within one run the returned IDs are pairwise
distinct and the embedded counter values strictly increase in invocation
order. -/
theorem create_id_counter_ids (start : Nat) (pfx : String) :
    (∀ n, 1 ≤ n → nthId pfx start n = pfx ++ fmt04 (start + n - 1)) ∧
    (∀ m n, 1 ≤ m → 1 ≤ n → m ≠ n →
      nthId pfx start m ≠ nthId pfx start n) ∧
    (∀ m n, 1 ≤ m → m < n → start + m - 1 < start + n - 1) := by
  refine ⟨?_, ?_, ?_⟩
  · intro n hn
    rw [nthId_eq]
    have h2 : start + (n - 1) = start + n - 1 := by omega
    rw [h2]
  · intro m n hm hn hne heq
    rw [nthId_eq, nthId_eq] at heq
    have hdata := congrArg String.data heq
    simp only [String.data_append] at hdata
    have hfmt := List.append_cancel_left hdata
    have := congrArg (charsValFrom 0) hfmt
    rw [charsValFrom_fmt04, charsValFrom_fmt04] at this
    omega
  · intro m n hm hmn
    omega

/-- Witness for C6 at the dataset parameters start 1, prefix UMCGr, for
the first two invocations. -/
theorem create_id_counter_ids_witness :
    nthId "UMCGr" 1 1 = "UMCGr" ++ fmt04 1 ∧
    nthId "UMCGr" 1 1 ≠ nthId "UMCGr" 1 2 ∧
    1 + 1 - 1 < 1 + 2 - 1 :=
  ⟨by
    have h := (create_id_counter_ids 1 "UMCGr").1 1 (by decide)
    simpa using h,
   (create_id_counter_ids 1 "UMCGr").2.1 1 2 (by decide) (by decide)
     (by decide),
   (create_id_counter_ids 1 "UMCGr").2.2 1 2 (by decide) (by decide)⟩

/-- For every numeric code the two lookup dictionaries are either both
absent or both present, and when present the SUBSITES table maps the ICD
code to the same anatomic location. -/
theorem table_coherence (n : Int) :
    (subsiteTable n = none ∧ locationTable n = none) ∨
    (∃ s l, subsiteTable n = some s ∧ locationTable n = some l ∧
      icd_to_location s = l) := by
  by_cases h16 : n = 16
  · subst h16; right; exact ⟨"C13.0", "hypopharynx", rfl, rfl, by decide⟩
  by_cases h17 : n = 17
  · subst h17; right; exact ⟨"C12", "hypopharynx", rfl, rfl, by decide⟩
  by_cases h18 : n = 18
  · subst h18; right; exact ⟨"C13.2", "hypopharynx", rfl, rfl, by decide⟩
  by_cases h19 : n = 19
  · subst h19; right; exact ⟨"C32.1", "larynx", rfl, rfl, by decide⟩
  by_cases h20 : n = 20
  · subst h20; right; exact ⟨"C32.0", "larynx", rfl, rfl, by decide⟩
  by_cases h21 : n = 21
  · subst h21; right; exact ⟨"C32.2", "larynx", rfl, rfl, by decide⟩
  by_cases h221 : n = 221
  · subst h221; right; exact ⟨"C32.0", "larynx", rfl, rfl, by decide⟩
  left
  constructor
  · unfold subsiteTable
    split
    · omega
    · omega
    · omega
    · omega
    · omega
    · omega
    · omega
    · rfl
  · unfold locationTable
    split
    · omega
    · omega
    · omega
    · omega
    · omega
    · omega
    · omega
    · rfl

/-- C9: subsite_mapping succeeds with a value exactly when
location_mapping does (the two lookup tables have the same key set), and
whenever both succeed, icd_to_location of the ICD subsite equals the
assigned anatomic location. -/
theorem subsite_location_coherent (entry : Cell) :
    ((∃ s, subsite_mapping entry = Except.ok (some s)) ↔
      (∃ l, location_mapping entry = Except.ok (some l))) ∧
    (∀ s l, subsite_mapping entry = Except.ok (some s) →
      location_mapping entry = Except.ok (some l) →
      icd_to_location s = l) ∧
    (∀ n : Int, (subsiteTable n).isSome = (locationTable n).isSome) := by
  refine ⟨?_, ?_, ?_⟩
  · cases h : pyInt entry with
    | none => simp [subsite_mapping, location_mapping, h]
    | some n =>
      rcases table_coherence n with ⟨hs, hl⟩ | ⟨s, l, hs, hl, _⟩ <;>
        simp [subsite_mapping, location_mapping, h, hs, hl]
  · intro s l hsub hloc
    cases h : pyInt entry with
    | none =>
      simp [subsite_mapping, h] at hsub
    | some n =>
      rcases table_coherence n with ⟨hs, hl⟩ | ⟨s2, l2, hs, hl, hco⟩
      · simp [subsite_mapping, h, hs] at hsub
      · simp only [subsite_mapping, location_mapping, h, hs, hl]
          at hsub hloc
        injection hsub with hsub
        injection hloc with hloc
        injection hsub with hsub
        injection hloc with hloc
        subst hsub; subst hloc
        exact hco
  · intro n
    rcases table_coherence n with ⟨hs, hl⟩ | ⟨s, l, hs, hl, _⟩ <;>
      simp [hs, hl]

/-- Witness for C9 at the numeric code 16: subsite C13.0 and location
hypopharynx agree through icd_to_location. -/
theorem subsite_location_coherent_witness :
    icd_to_location "C13.0" = "hypopharynx" ∧
    (∃ s, subsite_mapping (Cell.int 16) = Except.ok (some s)) :=
  ⟨(subsite_location_coherent (Cell.int 16)).2.1 "C13.0" "hypopharynx"
      rfl rfl,
   ⟨"C13.0", rfl⟩⟩

/-- Each output row of a run depends only on the raw row and its index. -/
theorem runRows_mapIdx (pfx : String) (rows : List RawRow) :
    ∀ c, runRows pfx c rows =
      rows.mapIdx (fun i row => (transformRow pfx (c + i) row).1) := by
  induction rows with
  | nil => intro c; rfl
  | cons r rest ih =>
    intro c
    simp only [runRows, List.mapIdx_cons, Nat.add_zero]
    congr 1
    have hstep : (transformRow pfx c r).2 = c + 1 := rfl
    rw [hstep, ih (c + 1)]
    have harg : (fun i row => (transformRow pfx (c + 1 + i) row).1) =
        (fun i row => (transformRow pfx (c + (i + 1)) row).1) := by
      funext i row
      rw [Nat.add_assoc, Nat.add_comm 1 i]
    rw [harg]

/-- C7: running the transformation twice on the same raw dataset with a
freshly constructed ID Generator each time produces identical canonical
output; each output row is a pure function of the raw row and its index,
and the date primitives return equal results on equal inputs. -/
theorem pipeline_two_runs (pfx : String) (start : Nat)
    (rows : List RawRow) :
    (runTwice pfx start rows).1 = (runTwice pfx start rows).2 ∧
    runPipeline pfx start rows =
      rows.mapIdx (fun i row => (transformRow pfx (start + i) row).1) ∧
    (∀ d, robust_date d = robust_date d) ∧
    (∀ es, get_earlier_date es = get_earlier_date es) :=
  ⟨rfl, runRows_mapIdx pfx rows start, fun _ => rfl, fun _ => rfl⟩
